import Mathlib

/-!
Verification development for the Velvet orchestration core.

The definitions below are a shallow embedding of the TypeScript source:
  - src/unnamed/part_000 (the shared type declarations),
  - src/components/Dashboard.tsx (the orchestrator),
  - src/components/Onboarding.tsx (calibration flow),
  - src/services/geminiService.ts (generative client wrappers).

External collaborators (the generative model, JSON.parse, Date.now,
crypto.randomUUID) are modelled as explicit parameters or, for the UUID
source, as a counter drawn from the component state: crypto.randomUUID is
specified to return an identifier distinct from every previously returned
one, which a strictly increasing counter realizes.  React state updates of
the form setX(prev => ...) are modelled as explicit state passing; values
captured by a closure at render time (the stale-closure behaviour of the
source) are read from the state as it was at handler entry.
-/

/-- Embeds PersonalityType from src/unnamed/part_000. -/
inductive PersonalityType where
  | ANALYTICAL
  | CREATIVE
  | ZEN
  | HIGH_ENERGY
  | EMPATHETIC
  | AUTHORITATIVE
  | WHIMSICAL
deriving DecidableEq

/-- Embeds UserProfile from src/unnamed/part_000 (pace is a JS number,
modelled as Int; the optional moodBoardUrl as Option String). -/
structure UserProfile where
  name : String
  bio : String
  personality : PersonalityType
  interests : List String
  tone : String
  pace : Int
  moodBoardUrl : Option String
deriving DecidableEq

/-- Embeds the fontFamily union type of DesignSystem. -/
inductive FontFamily where
  | sans
  | serif
  | mono
deriving DecidableEq

/-- Embeds the spacing union type of DesignSystem. -/
inductive Spacing where
  | compact
  | comfortable
  | spacious
deriving DecidableEq

/-- Embeds DesignSystem from src/unnamed/part_000. -/
structure DesignSystem where
  primaryColor : String
  secondaryColor : String
  backgroundColor : String
  textColor : String
  fontFamily : FontFamily
  borderRadius : String
  spacing : Spacing
deriving DecidableEq

/-- Embeds ProductConcept from src/unnamed/part_000; the optional
imageUrl is filled in asynchronously after creation. -/
structure ProductConcept where
  conceptName : String
  coreFunction : String
  aestheticDescription : String
  uniqueSellingPoint : String
  imageUrl : Option String
deriving DecidableEq

/-- Embeds the feature triples of GeneratedContent. -/
structure Feature where
  title : String
  description : String
  icon : String
deriving DecidableEq

/-- Embeds GeneratedContent from src/unnamed/part_000. -/
structure GeneratedContent where
  headline : String
  subheadline : String
  ctaText : String
  features : List Feature
  productConcepts : List ProductConcept
  heroImagePrompt : Option String
  heroImageUrl : Option String
deriving DecidableEq

/-- Embeds VerificationResult from src/unnamed/part_000 (score is a JS
number, modelled as Int; the three vibe flags are optional in the source
type). -/
structure VerificationResult where
  score : Int
  aligned : Bool
  critique : String
  suggestions : String
  toneMismatch : Option Bool
  visualOverload : Option Bool
  paceFriction : Option Bool
deriving DecidableEq

/-- Embeds ExperienceData from src/unnamed/part_000. -/
structure ExperienceData where
  design : DesignSystem
  content : GeneratedContent
  verification : Option VerificationResult
deriving DecidableEq

/-- Embeds Blueprint from src/unnamed/part_000. -/
structure Blueprint where
  strategy : String
  visualMetaphor : String
  copyAngle : String
deriving DecidableEq

/-- Embeds AgentStage from src/unnamed/part_000. -/
inductive AgentStage where
  | IDLE
  | CALIBRATING
  | PLANNING
  | DRAFTING
  | GENERATING_ASSETS
  | VERIFYING
  | REFINING
  | COMPLETE
  | DRIFT_DETECTED
deriving DecidableEq

/-- The string value of an AgentStage (the source represents stages as
string literals directly). -/
def stageName : AgentStage → String
  | .IDLE => "IDLE"
  | .CALIBRATING => "CALIBRATING"
  | .PLANNING => "PLANNING"
  | .DRAFTING => "DRAFTING"
  | .GENERATING_ASSETS => "GENERATING_ASSETS"
  | .VERIFYING => "VERIFYING"
  | .REFINING => "REFINING"
  | .COMPLETE => "COMPLETE"
  | .DRIFT_DETECTED => "DRIFT_DETECTED"

/-- Embeds LogEntry from src/unnamed/part_000. -/
structure LogEntry where
  stage : AgentStage
  message : String
  timestamp : Nat
deriving DecidableEq

/-- Embeds InteractionType from src/unnamed/part_000. -/
inductive InteractionType where
  | REMIX
  | CHAT
  | VISUAL_EDIT
  | COPY_EDIT
  | REJECT
deriving DecidableEq

/-- Embeds MemoryEvent from src/unnamed/part_000.  The id string produced
by crypto.randomUUID is modelled as a Nat drawn from the fresh-id counter
of the dashboard state (the UUID contract: each draw is distinct from all
earlier draws). -/
structure MemoryEvent where
  id : Nat
  timestamp : Nat
  type : InteractionType
  detail : String
  contextSummary : String
deriving DecidableEq

/-- The dashboard component state used by the orchestrator handlers
(Dashboard.tsx lines 16-25), with nextId the fresh-id counter modelling
crypto.randomUUID. -/
structure DashState where
  userProfile : UserProfile
  data : Option ExperienceData
  stage : AgentStage
  logs : List LogEntry
  blueprint : Option Blueprint
  memory : List MemoryEvent
  nextId : Nat
deriving DecidableEq

/-- The MemoryEvent built by recordInteraction (Dashboard.tsx lines 62-68):
a fresh id, the Date.now timestamp, the given type and detail, and a
context summary interpolating the render-time stage. -/
def mkMemoryEvent (s : DashState) (t : InteractionType) (detail : String)
    (now : Nat) : MemoryEvent :=
  { id := s.nextId
    timestamp := now
    type := t
    detail := detail
    contextSummary := "Stage: " ++ stageName s.stage }

/-- Embeds recordInteraction (Dashboard.tsx lines 61-75).  Returns the
updated state together with the list of checkDrift invocations made (each
carrying the history argument it was given).  The memory value read by the
drift condition is the render-time (pre-append) list, as in the source. -/
def recordInteraction (s : DashState) (t : InteractionType) (detail : String)
    (now : Nat) : DashState × List (List MemoryEvent) :=
  let event := mkMemoryEvent s t detail now
  let s' := { s with memory := s.memory ++ [event], nextId := s.nextId + 1 }
  if 0 < s.memory.length ∧ s.memory.length % 3 = 0 then
    (s', [s.memory ++ [event]])
  else
    (s', [])

/-- Embeds the per-completion state patch of the product-image fan-out
(Dashboard.tsx lines 182-187): copy the latest concept list and overwrite
only the imageUrl of the slot at the original index of the completed task.
An out-of-range index leaves the list unchanged (indices produced by the
fan-out are always in range). -/
def patchConceptImage : List ProductConcept → Nat → String → List ProductConcept
  | [], _, _ => []
  | c :: cs, 0, url => { c with imageUrl := some url } :: cs
  | c :: cs, n + 1, url => c :: patchConceptImage cs n url

/-- Embeds the fan-out of Dashboard.tsx lines 174-191: task idx resolves to
urls idx, and the completions apply their patches to the latest state in
completion order (the list order). -/
def runFanOut (concepts : List ProductConcept) (urls : Nat → String)
    (order : List Nat) : List ProductConcept :=
  order.foldl (fun l idx => patchConceptImage l idx (urls idx)) concepts

/-- One entry per generative call made by the verification phase of the
orchestrator, in call order. -/
inductive PipelineCall where
  | verifyCall
  | refineCall
deriving DecidableEq

/-- Embeds the image splice of Dashboard.tsx lines 212-214: each refined
concept receives the imageUrl of the pre-refinement concept at the same
index, or none where the pre-refinement list has no such index
(the optional-chaining access currentDraft.content.productConcepts[i]?). -/
def spliceConceptImages : List ProductConcept → List ProductConcept → List ProductConcept
  | [], _ => []
  | r :: rs, [] => { r with imageUrl := none } :: spliceConceptImages rs []
  | r :: rs, c :: cs => { r with imageUrl := c.imageUrl } :: spliceConceptImages rs cs

/-- Embeds the verification-and-refinement phase of orchestrateCreation
(Dashboard.tsx lines 194-218), with the two generative calls (verifyDraft,
refineDraft) passed in as oracles.  Returns the final published state
together with the trace of generative calls made, in order. -/
def verificationPhase (verify : ExperienceData → VerificationResult)
    (refine : ExperienceData → VerificationResult → ExperienceData)
    (currentDraft : ExperienceData) : ExperienceData × List PipelineCall :=
  let verification := verify currentDraft
  if verification.aligned then
    ({ currentDraft with verification := some verification },
     [PipelineCall.verifyCall])
  else
    let refinedDraft := refine currentDraft verification
    let splicedContent :=
      { refinedDraft.content with
        heroImageUrl := currentDraft.content.heroImageUrl
        productConcepts :=
          spliceConceptImages refinedDraft.content.productConcepts
            currentDraft.content.productConcepts }
    let refinedDraft := { refinedDraft with content := splicedContent }
    let storedVerification :=
      { verification with
        aligned := true
        score := min (verification.score + 15) 99 }
    ({ refinedDraft with verification := some storedVerification },
     [PipelineCall.verifyCall, PipelineCall.refineCall])

/-- Embeds the inlineData payload of a generative-response part. -/
structure InlineData where
  mimeType : Option String
  data : String
deriving DecidableEq

/-- Embeds one part of a generative response; a text-only part carries no
inlineData. -/
structure ResponsePart where
  inlineData : Option InlineData
deriving DecidableEq

/-- Embeds the content of a response candidate. -/
structure CandidateContent where
  parts : Option (List ResponsePart)
deriving DecidableEq

/-- Embeds a response candidate. -/
structure Candidate where
  content : Option CandidateContent
deriving DecidableEq

/-- Embeds a generative image response. -/
structure GenResponse where
  candidates : Option (List Candidate)
deriving DecidableEq

/-- Embeds the access response.candidates?.[0]?.content?.parts || []
(geminiService.ts lines 316, 352). -/
def responseParts (r : GenResponse) : List ResponsePart :=
  match r.candidates with
  | none => []
  | some cands =>
    match cands.head? with
    | none => []
    | some cand =>
      match cand.content with
      | none => []
      | some content => content.parts.getD []

/-- The first part of the response carrying inlineData, if any: the loop
of geminiService.ts lines 316-320 returns on the first such part. -/
def firstImagePart : List ResponsePart → Option InlineData
  | [] => none
  | p :: ps =>
    match p.inlineData with
    | some d => some d
    | none => firstImagePart ps

/-- The data URL built for an image part (geminiService.ts line 318); a
missing or empty mimeType falls back to image/png (JS truthiness of the
template interpolation). -/
def dataUrlOf (d : InlineData) : String :=
  let mime :=
    match d.mimeType with
    | some m => if m = "" then "image/png" else m
    | none => "image/png"
  "data:" ++ mime ++ ";base64," ++ d.data

/-- Embeds generateProductAsset (geminiService.ts lines 327-361) after the
credential check: the underlying generateContent call either throws (the
catch logs and falls through) or yields a response whose first inlineData
part becomes a data URL; with no such part the function returns the empty
string. -/
def generateProductAsset (callResult : Except Unit GenResponse) : String :=
  match callResult with
  | .error _ => ""
  | .ok resp =>
    match firstImagePart (responseParts resp) with
    | some d => dataUrlOf d
    | none => ""

/-- Embeds generateVisualAsset (geminiService.ts lines 291-325) after the
credential check; the extraction logic is identical to
generateProductAsset (the two differ only in prompt text). -/
def generateVisualAsset (callResult : Except Unit GenResponse) : String :=
  match callResult with
  | .error _ => ""
  | .ok resp =>
    match firstImagePart (responseParts resp) with
    | some d => dataUrlOf d
    | none => ""

/-- The synchronous start slice of orchestrateCreation(true)
(Dashboard.tsx lines 132-135): set the stage to DRAFTING and record a
REMIX memory event.  The context summary of that event reads the
render-time stage (the stale closure of the source), which is the stage at
handler entry.  Returns the updated state and the drift checks fired. -/
def beginRemixCycle (s : DashState) (now : Nat) :
    DashState × List (List MemoryEvent) :=
  let r := recordInteraction s InteractionType.REMIX
    "User requested full regeneration/remix" now
  ({ r.1 with stage := AgentStage.DRAFTING }, r.2)

/-- Embeds handleRemix (Dashboard.tsx lines 233-237).  The Bool records
whether orchestrateCreation(true) was invoked. -/
def handleRemix (s : DashState) (now : Nat) :
    (DashState × List (List MemoryEvent)) × Bool :=
  if s.stage = AgentStage.COMPLETE ∧ s.data.isSome then
    (beginRemixCycle s now, true)
  else
    ((s, []), false)

/-- The slice of a UserProfile returned by calibratePersona
(an optional-field slice of UserProfile, restricted to the calibration
schema fields, geminiService.ts lines 65-74). -/
structure ProfilePatch where
  personality : Option PersonalityType
  interests : Option (List String)
  tone : Option String
  pace : Option Int
deriving DecidableEq

/-- The onboarding component state (Onboarding.tsx lines 11-15). -/
structure OnboardingState where
  bio : String
  name : String
  moodBoardUrl : String
  inferredProfile : Option ProfilePatch
deriving DecidableEq

/-- The hardcoded fallback profile of Onboarding.tsx lines 26-31. -/
def defaultFallbackProfile : ProfilePatch :=
  { personality := some PersonalityType.CREATIVE
    interests := some ["General"]
    tone := some "Friendly"
    pace := some 3 }

/-- An executable model of the JS String.prototype.trim: drop whitespace
from both ends. -/
def jsTrim (s : String) : String :=
  String.mk
    (((s.toList.dropWhile Char.isWhitespace).reverse.dropWhile
        Char.isWhitespace).reverse)

/-- Embeds handleCalibration (Onboarding.tsx lines 17-35): a blank bio or
name returns early; otherwise the calibration call either succeeds with a
profile patch or throws, in which case the hardcoded fallback profile is
stored instead. -/
def handleCalibration (s : OnboardingState)
    (callResult : Except Unit ProfilePatch) : OnboardingState :=
  if jsTrim s.bio = "" ∨ jsTrim s.name = "" then s
  else
    match callResult with
    | .ok p => { s with inferredProfile := some p }
    | .error _ => { s with inferredProfile := some defaultFallbackProfile }

/-- Embeds handleConfirm (Onboarding.tsx lines 37-49): with an inferred
profile and a nonempty name, builds the UserProfile handed to onComplete.
The TS non-null assertion on personality is modelled as a guard (every
code path storing an inferred profile supplies it); the JS truthiness
defaults (interests, tone, pace) are spelled out. -/
def handleConfirm (s : OnboardingState) : Option UserProfile :=
  match s.inferredProfile with
  | none => none
  | some p =>
    if s.name = "" then none
    else
      match p.personality with
      | none => none
      | some pt =>
        some
          { name := s.name
            bio := s.bio
            personality := pt
            interests := p.interests.getD []
            tone :=
              match p.tone with
              | some tn => if tn = "" then "Neutral" else tn
              | none => "Neutral"
            pace :=
              match p.pace with
              | some v => if v = 0 then 3 else v
              | none => 3
            moodBoardUrl := some s.moodBoardUrl }

/-- The backtick character, written by code point. -/
def fenceBacktick : Char := Char.ofNat 96

/-- The characters of the fence opener with trailing newline matched by
the first regex alternative of cleanAndParseJSON. -/
def fenceJsonNl : List Char :=
  [fenceBacktick, fenceBacktick, fenceBacktick, 'j', 's', 'o', 'n', '\n']

/-- The characters of the fence opener without trailing newline. -/
def fenceJson : List Char :=
  [fenceBacktick, fenceBacktick, fenceBacktick, 'j', 's', 'o', 'n']

/-- The characters of a fence preceded by a newline, matched by the second
regex alternative. -/
def nlFence : List Char :=
  ['\n', fenceBacktick, fenceBacktick, fenceBacktick]

/-- The characters of a bare fence. -/
def bareFence : List Char :=
  [fenceBacktick, fenceBacktick, fenceBacktick]

/-- Embeds the global regex replace of geminiService.ts line 55: scan left
to right, removing at each position the longest match of the alternatives
in regex order (fence opener with optional newline first, then optional
newline plus closing fence). -/
def stripFences : List Char → List Char
  | [] => []
  | c :: cs =>
    if (c :: cs).take 8 = fenceJsonNl then stripFences (cs.drop 7)
    else if (c :: cs).take 7 = fenceJson then stripFences (cs.drop 6)
    else if (c :: cs).take 4 = nlFence then stripFences (cs.drop 3)
    else if (c :: cs).take 3 = bareFence then stripFences (cs.drop 2)
    else c :: stripFences cs
termination_by l => l.length
decreasing_by
  all_goals simp [List.length_drop]
  all_goals omega

/-- A JSON value, the result type of the platform JSON.parse. -/
inductive Json where
  | null
  | bool (b : Bool)
  | num (n : Int)
  | str (s : String)
  | arr (elems : List Json)
  | obj (fields : List (String × Json))

/-- Embeds cleanAndParseJSON (geminiService.ts lines 51-61).  The platform
JSON.parse is an external collaborator, passed as the parse oracle (none
models a parse exception).  A missing or empty text returns the empty
object; otherwise the code fences are stripped, the result trimmed, and a
parse failure raises the malformed-response error. -/
def cleanAndParseJSON (parse : String → Option Json) (text : Option String) :
    Except String Json :=
  match text with
  | none => .ok (Json.obj [])
  | some t =>
    if t = "" then .ok (Json.obj [])
    else
      match parse (jsTrim (String.mk (stripFences t.toList))) with
      | some j => .ok j
      | none => .error "Model response was not valid JSON."

/-- A concrete user profile for concrete evaluations. -/
def sampleProfile : UserProfile :=
  { name := "Ada"
    bio := "calm minimal things"
    personality := PersonalityType.ZEN
    interests := ["calm"]
    tone := "Calm"
    pace := 1
    moodBoardUrl := none }

/-- A concrete design system for concrete evaluations. -/
def sampleDesign : DesignSystem :=
  { primaryColor := "#112233"
    secondaryColor := "#445566"
    backgroundColor := "#ffffff"
    textColor := "#000000"
    fontFamily := FontFamily.sans
    borderRadius := "rounded"
    spacing := Spacing.comfortable }

/-- A concrete product concept with no image yet. -/
def sampleConcept (n : String) : ProductConcept :=
  { conceptName := n
    coreFunction := "fn"
    aestheticDescription := "desc"
    uniqueSellingPoint := "usp"
    imageUrl := none }

/-- Three concrete concepts, as produced by one draft. -/
def sampleConcepts : List ProductConcept :=
  [sampleConcept "A", sampleConcept "B", sampleConcept "C"]

/-- Concrete per-task image URLs for the fan-out. -/
def sampleUrls : Nat → String := fun i => "url-" ++ toString i

/-- Concrete generated content. -/
def sampleContent : GeneratedContent :=
  { headline := "H"
    subheadline := "S"
    ctaText := "Go"
    features := []
    productConcepts := sampleConcepts
    heroImagePrompt := some "hero prompt"
    heroImageUrl := some "data:hero" }

/-- A concrete draft. -/
def sampleDraft : ExperienceData :=
  { design := sampleDesign
    content := sampleContent
    verification := none }

/-- A concrete memory event with id and timestamp i. -/
def sampleEvent (i : Nat) : MemoryEvent :=
  { id := i
    timestamp := i
    type := InteractionType.CHAT
    detail := "d"
    contextSummary := "Stage: IDLE" }

/-- A concrete dashboard state holding n prior events, ids 0..n-1. -/
def sampleDashWith (n : Nat) : DashState :=
  { userProfile := sampleProfile
    data := none
    stage := AgentStage.IDLE
    logs := []
    blueprint := none
    memory := (List.range n).map sampleEvent
    nextId := n }

/-- A concrete state in stage COMPLETE with a draft, as after a successful
cycle. -/
def completeDash : DashState :=
  { sampleDashWith 2 with
    stage := AgentStage.COMPLETE
    data := some sampleDraft }

/-- A verification oracle reporting misalignment with score 60. -/
def badVerify : ExperienceData → VerificationResult := fun _ =>
  { score := 60
    aligned := false
    critique := "too dense"
    suggestions := "loosen spacing"
    toneMismatch := none
    visualOverload := none
    paceFriction := some true }

/-- A refinement oracle returning the draft unchanged. -/
def idRefine : ExperienceData → VerificationResult → ExperienceData :=
  fun d _ => d

/-- A parse oracle that always fails. -/
def parseNone : String → Option Json := fun _ => none

/-- A concrete image response carrying one text-only part and no image
parts. -/
def emptyResp : GenResponse :=
  { candidates :=
      some [{ content := some { parts := some [{ inlineData := none }] } }] }

/-- A concrete onboarding state before calibration. -/
def sampleOnboarding : OnboardingState :=
  { bio := "calm and minimal"
    name := "Ada"
    moodBoardUrl := ""
    inferredProfile := none }

lemma recordInteraction_memory (s : DashState) (t : InteractionType)
    (detail : String) (now : Nat) :
    (recordInteraction s t detail now).1.memory
      = s.memory ++ [mkMemoryEvent s t detail now] := by
  unfold recordInteraction
  split <;> rfl

lemma recordInteraction_nextId (s : DashState) (t : InteractionType)
    (detail : String) (now : Nat) :
    (recordInteraction s t detail now).1.nextId = s.nextId + 1 := by
  unfold recordInteraction
  split <;> rfl

/-- C5: a call recordInteraction appends the new event, a drift check is
triggered if and only if the memory length before the append is a positive
multiple of 3, and the triggered check is given the memory list including
the newly appended event (the updated memory). -/
theorem drift_check_cadence (s : DashState) (t : InteractionType)
    (detail : String) (now : Nat) :
    ((recordInteraction s t detail now).2 ≠ [] ↔
      0 < s.memory.length ∧ s.memory.length % 3 = 0)
  ∧ ((recordInteraction s t detail now).1.memory
      = s.memory ++ [mkMemoryEvent s t detail now])
  ∧ (0 < s.memory.length ∧ s.memory.length % 3 = 0 →
      (recordInteraction s t detail now).2
        = [(recordInteraction s t detail now).1.memory]) := by
  refine ⟨?_, recordInteraction_memory s t detail now, ?_⟩
  · unfold recordInteraction
    by_cases h : 0 < s.memory.length ∧ s.memory.length % 3 = 0
    · simp [h]
    · simp [h]
  · intro h
    rw [recordInteraction_memory]
    unfold recordInteraction
    simp [h]

/-- C5 witness: with 3 prior events, appending a 4th triggers a drift
check. -/
theorem drift_check_cadence_witness :
    (recordInteraction (sampleDashWith 3) InteractionType.CHAT "fourth" 9).2
      ≠ [] :=
  (drift_check_cadence (sampleDashWith 3) InteractionType.CHAT "fourth" 9).1.mpr
    (by decide)

/-- C1 counterexample: from a memory list of exactly 2 prior events,
appending a 3rd event via recordInteraction triggers NO drift check (the
claim demanded exactly one). -/
theorem drift_on_third_event_counterexample :
    (sampleDashWith 2).memory.length = 2
  ∧ (recordInteraction (sampleDashWith 2) InteractionType.CHAT "third" 0).2
      = [] := by
  constructor <;> rfl

/-- C1 amended: starting from a memory list of exactly 3 prior events,
appending a 4th event invokes exactly one drift check, and that check
receives all 4 events; in general a drift check fires exactly on appending
the 4th, 7th, 10th, ... event (pre-append length a positive multiple of 3)
and never otherwise. -/
theorem drift_check_fires_on_fourth_event (s : DashState)
    (t : InteractionType) (detail : String) (now : Nat) :
    ((recordInteraction s t detail now).2.length = 1 ↔
      0 < s.memory.length ∧ s.memory.length % 3 = 0)
  ∧ (s.memory.length = 3 →
      (recordInteraction s t detail now).2
        = [s.memory ++ [mkMemoryEvent s t detail now]]
      ∧ (s.memory ++ [mkMemoryEvent s t detail now]).length = 4) := by
  constructor
  · unfold recordInteraction
    by_cases h : 0 < s.memory.length ∧ s.memory.length % 3 = 0
    · simp [h]
    · simp [h]
  · intro h3
    have h : 0 < s.memory.length ∧ s.memory.length % 3 = 0 := by omega
    unfold recordInteraction
    simp [h, h3]

/-- C1 amended witness: with 3 prior events the drift check fires once,
receiving the 4-event list. -/
theorem drift_check_fires_on_fourth_event_witness :
    (recordInteraction (sampleDashWith 3) InteractionType.REMIX "remix" 1).2
      = [(sampleDashWith 3).memory
          ++ [mkMemoryEvent (sampleDashWith 3) InteractionType.REMIX "remix" 1]]
  ∧ ((sampleDashWith 3).memory
      ++ [mkMemoryEvent (sampleDashWith 3) InteractionType.REMIX "remix" 1]).length
      = 4 :=
  (drift_check_fires_on_fourth_event (sampleDashWith 3) InteractionType.REMIX
    "remix" 1).2 (by decide)

/-- C9 counterexample: the appended event has contextSummary
"Stage: IDLE", which is not the stage name "IDLE": the summary carries a
"Stage: " prefix. -/
theorem memory_event_context_counterexample :
    ((recordInteraction (sampleDashWith 0) InteractionType.CHAT "hello" 0).1.memory.getLast?).map
        MemoryEvent.contextSummary = some "Stage: IDLE"
  ∧ stageName (sampleDashWith 0).stage = "IDLE"
  ∧ "Stage: IDLE" ≠ "IDLE" := by
  refine ⟨rfl, rfl, by decide⟩

/-- C9 amended: recordInteraction appends exactly one MemoryEvent; under
the fresh-id invariant (every stored id below the counter) the new id is
distinct from all existing event ids and the invariant is preserved; and
the contextSummary is the string "Stage: " followed by the current stage
name. -/
theorem memory_event_shape (s : DashState) (t : InteractionType)
    (detail : String) (now : Nat)
    (hfresh : ∀ e ∈ s.memory, e.id < s.nextId) :
    (recordInteraction s t detail now).1.memory
      = s.memory ++ [mkMemoryEvent s t detail now]
  ∧ (∀ e ∈ s.memory, e.id ≠ (mkMemoryEvent s t detail now).id)
  ∧ (mkMemoryEvent s t detail now).contextSummary
      = "Stage: " ++ stageName s.stage
  ∧ (∀ e ∈ (recordInteraction s t detail now).1.memory,
      e.id < (recordInteraction s t detail now).1.nextId) := by
  refine ⟨recordInteraction_memory s t detail now, ?_, rfl, ?_⟩
  · intro e he
    have h := hfresh e he
    simp only [mkMemoryEvent]
    omega
  · intro e he
    rw [recordInteraction_memory] at he
    rw [recordInteraction_nextId]
    rcases List.mem_append.mp he with h | h
    · exact Nat.lt_succ_of_lt (hfresh e h)
    · simp only [List.mem_singleton] at h
      subst h
      simp only [mkMemoryEvent]
      omega

/-- C9 amended witness: concrete append from a 2-event state with fresh
counter. -/
theorem memory_event_shape_witness :
    (recordInteraction (sampleDashWith 2) InteractionType.CHAT "third" 7).1.memory
      = (sampleDashWith 2).memory
        ++ [mkMemoryEvent (sampleDashWith 2) InteractionType.CHAT "third" 7] :=
  (memory_event_shape (sampleDashWith 2) InteractionType.CHAT "third" 7
    (by decide)).1

lemma beginRemixCycle_stage (s : DashState) (now : Nat) :
    (beginRemixCycle s now).1.stage = AgentStage.DRAFTING := by
  simp only [beginRemixCycle]

/-- C7: handleRemix invokes orchestrateCreation(true) if and only if the
stage is exactly COMPLETE and a draft exists; in that case the stage
leaves COMPLETE for DRAFTING; in every other case the call is a no-op:
the whole state (stage, draft, blueprint, logs, memory) is unchanged and
no drift check fires. -/
theorem remix_gating (s : DashState) (now : Nat) :
    ((handleRemix s now).2 = true ↔
      s.stage = AgentStage.COMPLETE ∧ s.data.isSome)
  ∧ ((handleRemix s now).2 = false →
      (handleRemix s now).1.1 = s ∧ (handleRemix s now).1.2 = [])
  ∧ ((handleRemix s now).2 = true →
      (handleRemix s now).1.1.stage = AgentStage.DRAFTING) := by
  unfold handleRemix
  by_cases h : s.stage = AgentStage.COMPLETE ∧ s.data.isSome
  · simp [h, beginRemixCycle_stage]
  · simp [h]

/-- C7 witness: from COMPLETE with a draft the remix starts and leaves
COMPLETE; the gate condition holds concretely. -/
theorem remix_gating_witness :
    (handleRemix completeDash 5).2 = true
  ∧ (handleRemix completeDash 5).1.1.stage = AgentStage.DRAFTING := by
  have hstart : (handleRemix completeDash 5).2 = true :=
    (remix_gating completeDash 5).1.mpr (by decide)
  exact ⟨hstart, (remix_gating completeDash 5).2.2 hstart⟩

/-- C8: when the calibration call throws and the bio and name are
nonblank, onboarding stores the hardcoded default profile (personality
CREATIVE, interests ["General"], tone "Friendly", pace 3) and the user can
still confirm: handleConfirm succeeds and hands over a profile built from
those defaults. -/
theorem calibration_fallback (s : OnboardingState) (e : Unit)
    (hb : jsTrim s.bio ≠ "") (hn : jsTrim s.name ≠ "") :
    (handleCalibration s (Except.error e)).inferredProfile
      = some defaultFallbackProfile
  ∧ ∃ u : UserProfile,
      handleConfirm (handleCalibration s (Except.error e)) = some u
      ∧ u.personality = PersonalityType.CREATIVE
      ∧ u.interests = ["General"]
      ∧ u.tone = "Friendly"
      ∧ u.pace = 3
      ∧ u.name = s.name := by
  have hname : s.name ≠ "" := by
    intro h
    apply hn
    rw [h]
    rfl
  have hcal : handleCalibration s (Except.error e)
      = { s with inferredProfile := some defaultFallbackProfile } := by
    unfold handleCalibration
    rw [if_neg]
    push_neg
    exact ⟨hb, hn⟩
  rw [hcal]
  refine ⟨rfl, ?_⟩
  unfold handleConfirm
  simp only [defaultFallbackProfile]
  rw [if_neg hname]
  exact ⟨_, rfl, rfl, rfl, rfl, rfl, rfl⟩

/-- C8 witness: concrete onboarding state with nonblank bio and name. -/
theorem calibration_fallback_witness :
    (handleCalibration sampleOnboarding (Except.error ())).inferredProfile
      = some defaultFallbackProfile
  ∧ ∃ u : UserProfile,
      handleConfirm (handleCalibration sampleOnboarding (Except.error ())) = some u
      ∧ u.personality = PersonalityType.CREATIVE
      ∧ u.interests = ["General"]
      ∧ u.tone = "Friendly"
      ∧ u.pace = 3
      ∧ u.name = sampleOnboarding.name :=
  calibration_fallback sampleOnboarding () (by decide) (by decide)

/-- C10: a missing or empty response text yields the empty object without
raising; the malformed-response error occurs only for nonempty text whose
fence-stripped, trimmed form still fails to parse. -/
theorem clean_parse_empty_tolerance (parse : String → Option Json) :
    cleanAndParseJSON parse none = Except.ok (Json.obj [])
  ∧ cleanAndParseJSON parse (some "") = Except.ok (Json.obj [])
  ∧ ∀ t msg, cleanAndParseJSON parse (some t) = Except.error msg →
      t ≠ "" ∧ parse (jsTrim (String.mk (stripFences t.toList))) = none := by
  refine ⟨rfl, ?_, ?_⟩
  · simp [cleanAndParseJSON]
  · intro t msg h
    unfold cleanAndParseJSON at h
    dsimp only at h
    by_cases ht : t = ""
    · rw [if_pos ht] at h
      cases h
    · refine ⟨ht, ?_⟩
      rw [if_neg ht] at h
      cases hp : parse (jsTrim (String.mk (stripFences t.toList))) with
      | none => rfl
      | some j =>
        rw [show (String.mk (stripFences t.toList)) = { data := stripFences t.toList } from rfl] at hp
        rw [hp] at h
        cases h

/-- C10 witness: with an always-failing parse oracle, nonempty text "x"
raises, so the error implies the stated facts; a missing text still yields
the empty object. -/
theorem clean_parse_empty_tolerance_witness :
    ("x" ≠ "" ∧ parseNone (jsTrim (String.mk (stripFences "x".toList))) = none)
  ∧ cleanAndParseJSON parseNone none = Except.ok (Json.obj []) :=
  ⟨(clean_parse_empty_tolerance parseNone).2.2 "x"
      "Model response was not valid JSON." rfl,
   (clean_parse_empty_tolerance parseNone).1⟩

lemma patchConceptImage_get? (l : List ProductConcept) (i k : Nat)
    (u : String) :
    (patchConceptImage l i u).get? k =
      if k = i then (l.get? k).map (fun c => { c with imageUrl := some u })
      else l.get? k := by
  induction l generalizing i k with
  | nil =>
    simp [patchConceptImage]
  | cons c cs ih =>
    cases i with
    | zero =>
      cases k with
      | zero => simp [patchConceptImage]
      | succ k => simp [patchConceptImage]
    | succ i =>
      cases k with
      | zero => simp [patchConceptImage]
      | succ k => simpa [patchConceptImage] using ih i k

lemma patchConceptImage_length (l : List ProductConcept) (i : Nat)
    (u : String) :
    (patchConceptImage l i u).length = l.length := by
  induction l generalizing i with
  | nil => rfl
  | cons c cs ih =>
    cases i with
    | zero => rfl
    | succ i => simpa [patchConceptImage] using ih i

lemma patchConceptImage_comm (l : List ProductConcept) (i j : Nat)
    (u v : String) (hij : i ≠ j) :
    patchConceptImage (patchConceptImage l i u) j v
      = patchConceptImage (patchConceptImage l j v) i u := by
  induction l generalizing i j with
  | nil => rfl
  | cons c cs ih =>
    cases i with
    | zero =>
      cases j with
      | zero => exact absurd rfl hij
      | succ j => rfl
    | succ i =>
      cases j with
      | zero => rfl
      | succ j =>
        have : i ≠ j := fun h => hij (by rw [h])
        simp only [patchConceptImage, ih i j this]

lemma runFanOut_cons (concepts : List ProductConcept) (urls : Nat → String)
    (i : Nat) (rest : List Nat) :
    runFanOut concepts urls (i :: rest)
      = runFanOut (patchConceptImage concepts i (urls i)) urls rest := rfl

lemma runFanOut_length (concepts : List ProductConcept) (urls : Nat → String)
    (order : List Nat) :
    (runFanOut concepts urls order).length = concepts.length := by
  induction order generalizing concepts with
  | nil => rfl
  | cons i rest ih =>
    rw [runFanOut_cons, ih, patchConceptImage_length]

lemma runFanOut_get? (urls : Nat → String) (order : List Nat)
    (concepts : List ProductConcept) (k : Nat) :
    (runFanOut concepts urls order).get? k =
      if k ∈ order then
        (concepts.get? k).map (fun c => { c with imageUrl := some (urls k) })
      else concepts.get? k := by
  induction order generalizing concepts with
  | nil => simp [runFanOut]
  | cons i rest ih =>
    rw [runFanOut_cons, ih]
    by_cases hk : k ∈ rest
    · rw [if_pos hk, if_pos (List.mem_cons_of_mem i hk)]
      rw [patchConceptImage_get?]
      by_cases hki : k = i
      · subst hki
        rw [if_pos rfl]
        cases concepts.get? k <;> rfl
      · rw [if_neg hki]
    · rw [if_neg hk, patchConceptImage_get?]
      by_cases hki : k = i
      · subst hki
        rw [if_pos rfl, if_pos (List.mem_cons_self k rest)]
      · rw [if_neg hki, if_neg (by simp [hki, hk])]

/-- C3: the per-index image patches of the product-image fan-out commute
for distinct indices, and for every completion order that is a permutation
of the task indices the final concept list assigns to each index k exactly
the image URL produced by task k, leaving every other field of every
concept unchanged. -/
theorem product_fanout_per_slot_isolation (concepts : List ProductConcept)
    (urls : Nat → String) (order : List Nat)
    (hperm : List.Perm order (List.range concepts.length)) :
    (∀ (l : List ProductConcept) (i j : Nat) (u v : String), i ≠ j →
        patchConceptImage (patchConceptImage l i u) j v
          = patchConceptImage (patchConceptImage l j v) i u)
  ∧ (runFanOut concepts urls order).length = concepts.length
  ∧ (∀ k, k < concepts.length →
      (runFanOut concepts urls order).get? k
        = (concepts.get? k).map (fun c => { c with imageUrl := some (urls k) })) := by
  refine ⟨fun l i j u v hij => patchConceptImage_comm l i j u v hij,
    runFanOut_length concepts urls order, ?_⟩
  intro k hk
  rw [runFanOut_get?]
  rw [if_pos]
  exact (hperm.mem_iff).mpr (List.mem_range.mpr hk)

/-- C3 witness: three tasks resolving in order [2,0,1] give each of the
three concepts the URL of its own task. -/
theorem product_fanout_per_slot_isolation_witness :
    (runFanOut sampleConcepts sampleUrls [2, 0, 1]).get? 1
      = (sampleConcepts.get? 1).map
          (fun c => { c with imageUrl := some (sampleUrls 1) })
  ∧ (runFanOut sampleConcepts sampleUrls [2, 0, 1]).length
      = sampleConcepts.length := by
  have h := product_fanout_per_slot_isolation sampleConcepts sampleUrls
    [2, 0, 1] (by decide)
  exact ⟨h.2.2 1 (by decide), h.2.1⟩

/-- C2: whenever verification reports aligned = false with score S, the
phase makes exactly one refinement call and no second verification call
(the call trace is verify, then refine, and nothing else), and the
verification stored on the published state has score min (S + 15) 99 and
aligned forced true. -/
theorem refinement_score_law (verify : ExperienceData → VerificationResult)
    (refine : ExperienceData → VerificationResult → ExperienceData)
    (d : ExperienceData) (h : (verify d).aligned = false) :
    (verificationPhase verify refine d).2
      = [PipelineCall.verifyCall, PipelineCall.refineCall]
  ∧ (verificationPhase verify refine d).2.count PipelineCall.refineCall = 1
  ∧ (verificationPhase verify refine d).2.count PipelineCall.verifyCall = 1
  ∧ (verificationPhase verify refine d).1.verification
      = some { verify d with
               aligned := true
               score := min ((verify d).score + 15) 99 } := by
  simp only [verificationPhase]
  rw [if_neg (by simp [h])]
  exact ⟨rfl, rfl, rfl, rfl⟩

/-- C2 witness: a misaligned verification with score 60 stores score 75,
aligned true, after exactly one verify and one refine call. -/
theorem refinement_score_law_witness :
    (verificationPhase badVerify idRefine sampleDraft).2
      = [PipelineCall.verifyCall, PipelineCall.refineCall]
  ∧ (verificationPhase badVerify idRefine sampleDraft).1.verification
      = some { badVerify sampleDraft with aligned := true, score := 75 } := by
  refine ⟨(refinement_score_law badVerify idRefine sampleDraft rfl).1, ?_⟩
  have h := (refinement_score_law badVerify idRefine sampleDraft rfl).2.2.2
  rw [h]
  rfl

lemma spliceConceptImages_length (rs cs : List ProductConcept) :
    (spliceConceptImages rs cs).length = rs.length := by
  induction rs generalizing cs with
  | nil => rfl
  | cons r rs ih => cases cs <;> simp [spliceConceptImages, ih]

lemma spliceConceptImages_get? (rs : List ProductConcept) :
    ∀ (cs : List ProductConcept) (i : Nat) (c : ProductConcept),
      (spliceConceptImages rs cs).get? i = some c →
      c.imageUrl = (cs.get? i).bind (fun pc => pc.imageUrl) := by
  induction rs with
  | nil =>
    intro cs i c h
    simp [spliceConceptImages] at h
  | cons r rs ih =>
    intro cs i c h
    cases cs with
    | nil =>
      cases i with
      | zero =>
        simp only [spliceConceptImages, List.get?_cons_zero,
          Option.some.injEq] at h
        subst h
        rfl
      | succ i =>
        simp only [spliceConceptImages, List.get?_cons_succ] at h
        simpa using ih [] i c h
    | cons c0 cs0 =>
      cases i with
      | zero =>
        simp only [spliceConceptImages, List.get?_cons_zero,
          Option.some.injEq] at h
        subst h
        rfl
      | succ i =>
        simp only [spliceConceptImages, List.get?_cons_succ] at h
        exact ih cs0 i c h

/-- C4: when the refinement branch runs, the published state keeps the
hero image URL of the pre-refinement draft, the concept list keeps the
length of the refined draft, and every concept of the published list
carries exactly the imageUrl of the pre-refinement concept at the same
index (none where the pre-refinement list has no such index): no image is
regenerated. -/
theorem refinement_preserves_images
    (verify : ExperienceData → VerificationResult)
    (refine : ExperienceData → VerificationResult → ExperienceData)
    (d : ExperienceData) (h : (verify d).aligned = false) :
    (verificationPhase verify refine d).1.content.heroImageUrl
      = d.content.heroImageUrl
  ∧ (verificationPhase verify refine d).1.content.productConcepts.length
      = (refine d (verify d)).content.productConcepts.length
  ∧ ∀ i c,
      (verificationPhase verify refine d).1.content.productConcepts.get? i
        = some c →
      c.imageUrl = (d.content.productConcepts.get? i).bind
        (fun pc => pc.imageUrl) := by
  simp only [verificationPhase]
  rw [if_neg (by simp [h])]
  refine ⟨rfl, spliceConceptImages_length _ _, ?_⟩
  intro i c hc
  exact spliceConceptImages_get? _ _ i c hc

/-- C4 witness: concrete misaligned run with the identity refinement
oracle keeps the sample draft hero URL. -/
theorem refinement_preserves_images_witness :
    (verificationPhase badVerify idRefine sampleDraft).1.content.heroImageUrl
      = sampleDraft.content.heroImageUrl :=
  (refinement_preserves_images badVerify idRefine sampleDraft rfl).1

/-- C6: a response with zero image parts (or a throwing underlying call)
makes the image helpers return the empty string instead of raising, the
patched concept then carries the empty placeholder as its image field, and
the pipeline still proceeds to verification (the verification phase always
begins with its verify call). -/
theorem empty_asset_tolerance (resp : GenResponse)
    (h : firstImagePart (responseParts resp) = none) :
    generateProductAsset (Except.ok resp) = ""
  ∧ generateVisualAsset (Except.ok resp) = ""
  ∧ (∀ e : Unit, generateProductAsset (Except.error e) = ""
      ∧ generateVisualAsset (Except.error e) = "")
  ∧ (∀ (concepts : List ProductConcept) (k : Nat) (c : ProductConcept),
      (patchConceptImage concepts k
          (generateProductAsset (Except.ok resp))).get? k = some c →
      c.imageUrl = some "")
  ∧ (∀ (verify : ExperienceData → VerificationResult)
      (refine : ExperienceData → VerificationResult → ExperienceData)
      (d : ExperienceData),
      ((verificationPhase verify refine d).2).head?
        = some PipelineCall.verifyCall) := by
  have hprod : generateProductAsset (Except.ok resp) = "" := by
    unfold generateProductAsset
    dsimp only
    rw [h]
  have hvis : generateVisualAsset (Except.ok resp) = "" := by
    unfold generateVisualAsset
    dsimp only
    rw [h]
  refine ⟨hprod, hvis, fun e => ⟨rfl, rfl⟩, ?_, ?_⟩
  · intro concepts k c hc
    rw [patchConceptImage_get?, if_pos rfl, hprod] at hc
    cases hg : concepts.get? k with
    | none =>
      rw [hg] at hc
      cases hc
    | some c0 =>
      rw [hg] at hc
      simp only [Option.map_some', Option.some.injEq] at hc
      rw [← hc]
  · intro verify refine d
    simp only [verificationPhase]
    split <;> rfl

/-- C6 witness: a concrete response whose single part carries no
inlineData yields the empty string from both image helpers. -/
theorem empty_asset_tolerance_witness :
    generateProductAsset (Except.ok emptyResp) = ""
  ∧ generateVisualAsset (Except.ok emptyResp) = "" :=
  ⟨(empty_asset_tolerance emptyResp rfl).1,
   (empty_asset_tolerance emptyResp rfl).2.1⟩
